import Mathlib

/-
  Verification of the DHS-To-Database CSPro ingestion engine.

  Shallow embedding of the relevant parts of the Python sources:
    - cspro_parser/DAT_Parser.py   (fixed-width line slicing, trim policy)
    - cspro_parser/DCF_Parser.py   (chunk terminators, value-range expansion,
                                    relation state machine, CSV writer headers)
    - lib03_Update_Metadata.py     (column-width widening, existence checks)
    - lib04_Update_Table_Data.py   (width widening, JSON-mode decision)

  Pure fragments become Lean functions; stateful code becomes explicit state
  passing; fallible code returns Except.
-/

/-! ## DAT parser embedding (DAT_Parser.py) -/

/-- Python slice semantics for nonnegative bounds: line[a:b] keeps positions
a, a+1, ..., b-1, clamping at the end of the list. -/
def pySlice (line : List Char) (a b : Nat) : List Char :=
  (line.take b).drop a

/-- Characters removed by Python str.strip() with no arguments
(ASCII whitespace; the code only meets these in fixed-width DAT lines). -/
def pythonIsSpace (c : Char) : Bool :=
  c == ' ' || c == '\t' || c == '\n' || c == '\r' || c == '\x0b' || c == '\x0c'

/-- Python str.strip(): remove leading and trailing whitespace. -/
def pyStrip (s : List Char) : List Char :=
  ((s.dropWhile pythonIsSpace).reverse.dropWhile pythonIsSpace).reverse

/-- One field descriptor from the parsed record spec used by parse_dat_file:
the Name, Start and Len columns (Start and Len already converted to int). -/
structure FieldInfo where
  Name : String
  Start : Nat
  Len : Nat
  deriving DecidableEq

/-- The strip_or_not lambda from parse_dat_file (DAT_Parser.py line 101):
keep CASEID / HHID cells byte-identical, strip all other cells. -/
def strip_or_not (data : List Char) (name : String) : List Char :=
  if name = "CASEID" ∨ name = "HHID" then data else pyStrip data

/-- The rowParts list comprehension from parse_dat_file (DAT_Parser.py lines
102-105): slice line[Start-1 : Start+Len-1] for each field of the record spec
and apply the trim policy. -/
def rowParts (record_spec : List FieldInfo) (line : List Char) : List (List Char) :=
  record_spec.map (fun i => strip_or_not (pySlice line (i.Start - 1) (i.Start + i.Len - 1)) i.Name)

/-! ## Relation state machine embedding (DCF_Parser.py, RelationRowProcessor) -/

/-- The five state variables of RelationRowProcessor (its __init__ sets all
of them to the empty string). -/
structure RelState where
  RelationshipName : String
  PrimaryTable : String
  PrimaryLink : String
  SecondaryTable : String
  SecondaryLink : String
  deriving DecidableEq

/-- RelationRowProcessor.__init__: all state variables empty. -/
def RelState.init : RelState := ⟨"", "", "", "", ""⟩

/-- One output row of the relationships specification (RelName, PrimaryTable,
SecondaryTable, PrimaryLink, SecondaryLink), mirroring the dictionary built
by __GetReturnObj__. -/
structure RelRow where
  RelName : String
  PrimaryTable : String
  SecondaryTable : String
  PrimaryLink : String
  SecondaryLink : String
  deriving DecidableEq

/-- RelationRowProcessor.__GetReturnObj__ (DCF_Parser.py lines 573-586):
None unless name, primary table and secondary table are all non-empty;
empty links are replaced by the sentinel *ROWID*. -/
def getReturnObj (s : RelState) : Option RelRow :=
  if s.RelationshipName = "" ∨ s.PrimaryTable = "" ∨ s.SecondaryTable = "" then
    none
  else
    some ⟨s.RelationshipName, s.PrimaryTable, s.SecondaryTable,
      (if s.PrimaryLink ≠ "" then s.PrimaryLink else "*ROWID*"),
      (if s.SecondaryLink ≠ "" then s.SecondaryLink else "*ROWID*")⟩

/-- RelationRowProcessor.AddRow (DCF_Parser.py lines 588-639): returns the
updated state together with the completed join row, if any; raising
ValueError is modelled by Except.error. -/
def AddRow (s : RelState) (fieldname fieldvalue : String) :
    Except String (RelState × Option RelRow) :=
  if fieldname = "Name" then
    if s.RelationshipName ≠ "" then
      .error "Name is already set, data would be lost. Use Emit() first"
    else .ok ({ s with RelationshipName := fieldvalue }, none)
  else if fieldname = "Primary" then
    if s.PrimaryTable ≠ "" then
      .error "Primary Table is already set, data would be lost. Use Emit() first"
    else .ok ({ s with PrimaryTable := fieldvalue }, none)
  else if fieldname = "PrimaryLink" then
    let returnObj := getReturnObj s
    .ok ({ s with PrimaryLink := fieldvalue, SecondaryTable := "", SecondaryLink := "" },
      returnObj)
  else if fieldname = "Secondary" then
    let returnobj := getReturnObj s
    let s1 := if s.SecondaryTable ≠ "" then { s with PrimaryLink := "" } else s
    .ok ({ s1 with SecondaryTable := fieldvalue, SecondaryLink := "" }, returnobj)
  else if fieldname = "SecondaryLink" then
    .ok ({ s with SecondaryLink := fieldvalue }, none)
  else
    .error ("Unknown relationship specification tag " ++ fieldvalue)

/-- RelationRowProcessor.Emit (DCF_Parser.py lines 641-645): return the join
currently specified, if currently possible, and reset the processor. -/
def Emit (s : RelState) : RelState × Option RelRow :=
  (RelState.init, getReturnObj s)

/-- The Key=Value lines of a [Relation] chunk fed through AddRow in order,
collecting the non-None returns, as DCF_Parser.parse does at lines 393-397. -/
def runRelationRowsAux : RelState → List RelRow → List (String × String) →
    Except String (RelState × List RelRow)
  | s, out, [] => .ok (s, out)
  | s, out, kv :: rest =>
      match AddRow s kv.1 kv.2 with
      | .error e => .error e
      | .ok (s2, some row) => runRelationRowsAux s2 (out ++ [row]) rest
      | .ok (s2, none) => runRelationRowsAux s2 out rest

/-- Process a whole list of Key=Value lines from the initial processor state. -/
def runRelationRows (rows : List (String × String)) :
    Except String (RelState × List RelRow) :=
  runRelationRowsAux RelState.init [] rows

/-- The [Relation] chunk terminator (DCF_Parser.py lines 344-350): relLink =
Emit() followed by an unconditional item assignment on the result, so a None
return is a TypeError; modelled by Except.error. -/
def relationTerminator (s : RelState) : Except String RelRow :=
  match (Emit s).2 with
  | some row => .ok row
  | none => .error "TypeError: relLink is None at chunk terminator"

/-- All relation rows contributed by one [Relation] chunk: those returned by
AddRow during the chunk plus the one forced out by the terminator. -/
def relationChunkOutput (rows : List (String × String)) :
    Except String (List RelRow) :=
  match runRelationRows rows with
  | .error e => .error e
  | .ok (s, out) =>
      match relationTerminator s with
      | .error e => .error e
      | .ok row => .ok (out ++ [row])

/-- The key/value sequence of claim C3. -/
def relSeqC3 : List (String × String) :=
  [("Name", "R"), ("Primary", "P"), ("Secondary", "S1"),
   ("SecondaryLink", "L1"), ("PrimaryLink", "L2"), ("Secondary", "S2")]

/-! ## Value-range materialization (DCF_Parser.py, ValueSet terminator) -/

/-- The value_type tags produced by the ValueSet terminator. -/
inductive ValueType where
  | ExplicitValue
  | RangeMin
  | RangeMax
  | MultiRangeMin
  | MultiRangeMax
  | ExpandedRange
  deriving DecidableEq

/-- One row of the values specification: (value, description, value_type).
Range endpoints are Python floats holding decimal numerals; modelled as
rationals (exact for the integer-valued, small ranges at stake). -/
structure ValueRow where
  value : ℚ
  desc : String
  vtype : ValueType
  deriving DecidableEq

/-- Python range(mn, mx + 1) as a list of integers. -/
def expandRange (mn mx : ℤ) : List ℤ :=
  (List.range (mx + 1 - mn).toNat).map (fun (j : ℕ) => mn + (j : ℤ))

/-- The body of the for-loop over chunkInfo ValueRanges at the ValueSet
terminator (DCF_Parser.py lines 298-335), for one range: the range size
(max - min) + 1 at most 1 raises ValueError; otherwise the range is
expanded, or emitted as min/max endpoint rows, according to the strategy
string, the expansion limit, whether the chunk held multiple ranges, and
whether both endpoints are integers (float.is_integer, i.e. denominator
one). -/
def materializeRange (strategy : String) (limit : ℤ) (gotMultipleRanges : Bool)
    (mn mx : ℚ) (desc : String) : Except String (List ValueRow) :=
  if (mx - mn) + 1 ≤ 1 then
    .error "Error parsing range"
  else if (mx - mn) + 1 ≤ (limit : ℚ) then
    if gotMultipleRanges then
      if (strategy = "All" ∨ strategy = "Multiple") ∧ (mn.den == 1 && mx.den == 1) then
        .ok ((expandRange mn.num mx.num).map
          (fun (v : ℤ) => ⟨(v : ℚ), desc, ValueType.ExpandedRange⟩))
      else
        .ok [⟨mn, desc, ValueType.MultiRangeMin⟩, ⟨mx, desc, ValueType.MultiRangeMax⟩]
    else
      if strategy = "All" ∧ (mn.den == 1 && mx.den == 1) then
        .ok ((expandRange mn.num mx.num).map
          (fun (v : ℤ) => ⟨(v : ℚ), desc, ValueType.ExpandedRange⟩))
      else
        .ok [⟨mn, desc, ValueType.RangeMin⟩, ⟨mx, desc, ValueType.RangeMax⟩]
  else
    if gotMultipleRanges then
      .ok [⟨mn, desc, ValueType.MultiRangeMin⟩, ⟨mx, desc, ValueType.MultiRangeMax⟩]
    else
      .ok [⟨mn, desc, ValueType.RangeMin⟩, ⟨mx, desc, ValueType.RangeMax⟩]

/-- Sequential processing of every range of one ValueSet chunk, appending the
produced rows to currentValues in order. -/
def materializeRangesAux (strategy : String) (limit : ℤ) (gotMultipleRanges : Bool) :
    List (ℚ × ℚ × String) → Except String (List ValueRow)
  | [] => .ok []
  | r :: rest =>
      match materializeRange strategy limit gotMultipleRanges r.1 r.2.1 r.2.2 with
      | .error e => .error e
      | .ok rows =>
          match materializeRangesAux strategy limit gotMultipleRanges rest with
          | .error e => .error e
          | .ok more => .ok (rows ++ more)

/-- The whole range-materialization step of the ValueSet terminator:
gotMultipleRanges is len(ValueRanges) > 1, computed once for the chunk. -/
def materializeRanges (strategy : String) (limit : ℤ)
    (ranges : List (ℚ × ℚ × String)) : Except String (List ValueRow) :=
  materializeRangesAux strategy limit (decide (ranges.length > 1)) ranges

/-! ## Dictionary / Level / Record chunk terminators (DCF_Parser.py) -/

/-- A parsed chunk is a dictionary of Key=Value pairs; DCF_Parser.parse keeps
only the first occurrence of each key (line 474), so lookup returns the first
match in insertion order. -/
abbrev ChunkInfo := List (String × String)

/-- First-occurrence lookup in a chunk dictionary (or in the myLevels /
myRecords dictionaries, which never hold duplicate keys). -/
def lookupKey (c : ChunkInfo) (k : String) : Option String :=
  (c.find? (fun kv => kv.1 == k)).map (fun kv => kv.2)

/-- Python dict assignment d[k] = v on an association list. -/
def setKey (m : ChunkInfo) (k v : String) : ChunkInfo :=
  if (m.find? (fun kv => kv.1 == k)).isSome then
    m.map (fun kv => if kv.1 == k then (k, v) else kv)
  else m ++ [(k, v)]

/-- One emitted row of the flat record specification, with the fields the
claims are about; all values are kept as the strings read from the DCF. -/
structure ItemRow where
  ItemType : String
  RecordName : String
  RecordLabel : String
  RecordTypeValue : String
  Name : String
  Label : String
  Start : String
  Len : String
  deriving DecidableEq

/-- Python str.strip with a single quote argument: remove leading and
trailing single-quote characters. -/
def stripQuotes (s : String) : String :=
  let q := Char.ofNat 39
  (((s.toList.dropWhile (fun c => c == q)).reverse.dropWhile
      (fun c => c == q)).reverse).asString

/-- The [Dictionary] chunk terminator (DCF_Parser.py lines 196-213): emits a
single row with RecordName / RecordLabel / RecordTypeValue all set to the
asterisk, Start and Len copied from the RecordTypeStart / RecordTypeLen keys,
and the ItemType literal the code assigns; also returns the survey-wide
ZeroFill and DecimalChar defaults taken from this chunk. Missing required
keys are a Python KeyError, modelled as Except.error. -/
def dictionaryTerminator (chunkInfo : ChunkInfo) :
    Except String (ItemRow × String × String) :=
  match lookupKey chunkInfo "RecordTypeStart", lookupKey chunkInfo "RecordTypeLen",
        lookupKey chunkInfo "ZeroFill", lookupKey chunkInfo "DecimalChar" with
  | some rts, some rtl, some zf, some dc =>
      .ok (⟨"RecordDesciption", "*", "*", "*",
            (lookupKey chunkInfo "Name").getD "",
            (lookupKey chunkInfo "Label").getD "",
            rts, rtl⟩, zf, dc)
  | _, _, _, _ => .error "KeyError in Dictionary chunk"

/-- The [Level] chunk terminator (DCF_Parser.py lines 218-228): a duplicate
level name with identical label prints a warning (the Bool) and stores the
pair again; a duplicate with a different label raises ValueError. -/
def levelTerminator (myLevels : ChunkInfo) (name label : String) :
    Except String (ChunkInfo × Bool) :=
  match lookupKey myLevels name with
  | some stored =>
      if stored = label then .ok (setKey myLevels name label, true)
      else .error "Duplicate level name encountered with non-matched label"
  | none => .ok (setKey myLevels name label, false)

/-- One id-item accumulated from an [IdItems] block (DCF_Parser.py
lines 376-381). -/
structure IdInfo where
  Name : String
  Label : String
  Start : String
  Len : String
  deriving DecidableEq

/-- The [Record] chunk terminator (DCF_Parser.py lines 230-271): emits one
IdItem row per accumulated id-item, copying the record context (with the
RecordTypeValue stripped of single quotes), then applies the same
duplicate-name rule as levels: identical label warns (the Bool), differing
label raises ValueError. -/
def recordTerminator (myRecords : ChunkInfo) (currentIds : List IdInfo)
    (name label rtv : String) :
    Except String (ChunkInfo × List ItemRow × Bool) :=
  let rows := currentIds.map (fun idi =>
    ⟨"IdItem", name, label, stripQuotes rtv, idi.Name, idi.Label, idi.Start, idi.Len⟩)
  match lookupKey myRecords name with
  | some stored =>
      if stored = label then .ok (setKey myRecords name label, rows, true)
      else .error "Duplicate record name encountered with non-matched label"
  | none => .ok (setKey myRecords name label, rows, false)

/-! ## Metadata loader embedding (lib03_Update_Metadata.py) -/

/-- _check_and_update_column_width for one (table, column): given the current
width from information_schema and the incoming required width, return the
stored width afterwards together with the ALTER COLUMN target width when one
was issued (None when the column was already wide enough). -/
def check_and_update_column_width (current req_width : ℤ) : ℤ × Option ℤ :=
  if req_width > current then (req_width, some req_width) else (current, none)

/-- The stored width of one column after a sequence of metadata loads, each
running _check_and_update_column_width with its own required width. -/
def widthAfterLoads (start : ℤ) (reqs : List ℤ) : ℤ :=
  reqs.foldl (fun cur req => (check_and_update_column_width cur req).1) start

/-- One row of the length_specs query in _ensure_column_widths
(lib04_Update_Table_Data.py lines 308-324): column name, required width
MAX(len) from the spec table, and the actual width from
information_schema. -/
structure LengthSpecRow where
  name : String
  req_len : ℤ
  actual_len : ℤ
  deriving DecidableEq

/-- _ensure_column_widths (lib04_Update_Table_Data.py lines 294-328): the
ALTER COLUMN operations issued, as (name, new width, old width) triples; only
the rows with req_len > actual_len are widened, each to its req_len. -/
def ensure_column_widths (length_specs : List LengthSpecRow) :
    List (String × ℤ × ℤ) :=
  (length_specs.filter (fun r => r.req_len > r.actual_len)).map
    (fun r => (r.name, r.req_len, r.actual_len))

/-- One row of a metadata table as seen by the existence / mode queries:
only the columns those queries touch. -/
structure MetaRow where
  surveyid : String
  filecode : String
  deriving DecidableEq

/-- Lower-casing of a string as a character list (SQL lower / ILIKE case
folding), kept on List Char so that it evaluates by kernel reduction. -/
def lowerChars (s : String) : List Char :=
  s.data.map Char.toLower

/-- SQL pattern match: filecode ILIKE the pattern made of two underscores,
the file type, and two more underscores. Each underscore matches exactly one
character and the file-type letters match case-insensitively. -/
def ilikeFtPattern (file_type : String) (filecode : String) : Bool :=
  let fc := lowerChars filecode
  let ft := lowerChars file_type
  fc.length == ft.length + 4 && ((fc.drop 2).take ft.length) == ft

/-- _get_any_in_db (lib03_Update_Metadata.py lines 143-153): count the rows
of the metadata table matching surveyid and the filecode pattern, then
return True only when the count exceeds one. -/
def get_any_in_db (rows : List MetaRow) (surveyid file_type : String) : Bool :=
  let n := (rows.filter
    (fun r => r.surveyid == surveyid && ilikeFtPattern file_type r.filecode)).length
  if n > 1 then true else false

/-! ## Table synthesizer JSON-mode decision (lib04_Update_Table_Data.py) -/

/-- One row of the spec table as touched by the country-specific query. -/
structure SpecRow where
  recordname : String
  recordlabel : String
  deriving DecidableEq

/-- The WHERE clause of the EXISTS query in _table_should_be_json
(lib04_Update_Table_Data.py lines 146-151), with SQL operator precedence:
AND binds tighter than OR, so the country-specific equality test is not
constrained by the recordname condition. -/
def csWhereClause (table_name : String) (r : SpecRow) : Bool :=
  (r.recordname == table_name && ("cs:".data).isPrefixOf (lowerChars r.recordlabel))
    || (lowerChars r.recordlabel == "country specific".data)

/-- _table_should_be_json (lib04_Update_Table_Data.py lines 140-152): true
when the column count exceeds _MAX_COLUMN_THRESHOLD = 500, else the EXISTS
query over the spec table. -/
def table_should_be_json (spec : List SpecRow) (table_name : String)
    (n_cols : ℕ) : Bool :=
  if n_cols > 500 then true
  else spec.any (csWhereClause table_name)

/-- Modelled from the claim C5 wording (storage-mode decision restricted to
rows of the record in question): JSON-mode iff the distinct field count
exceeds 500 or some spec row OF THAT RECORD has a record label matching
cs:% (case-insensitive) or equal to country specific. For comparison with
table_should_be_json, which embeds the source query. -/
def claimC5ShouldBeJson (spec : List SpecRow) (table_name : String)
    (n_cols : ℕ) : Bool :=
  decide (n_cols > 500) || spec.any (fun r =>
    r.recordname == table_name &&
      (("cs:".data).isPrefixOf (lowerChars r.recordlabel)
        || lowerChars r.recordlabel == "country specific".data))

/-! ## CSV writer header state (DCF_Parser.py, write) -/

/-- The class attribute DCF_Parser.MAIN_FIELD_NAMES (lines 20-22). -/
def MAIN_FIELD_NAMES : List String :=
  ["ItemType", "FileCode", "RecordName", "RecordTypeValue", "RecordLabel",
   "Name", "Label", "Start", "Len", "Occurrences", "ZeroFill",
   "DecimalChar", "Decimal"]

/-- The header-building prefix of DCF_Parser.write (lines 503-505):
schemafields = DCF_Parser.MAIN_FIELD_NAMES aliases the class attribute, and
append mutates the shared list, so with fme_compatible the class attribute
itself grows. Returns (class attribute afterwards, header row written). -/
def writeHeader (main_field_names : List String) (fme_compatible : Bool) :
    List String × List String :=
  let schemafields :=
    if fme_compatible then main_field_names ++ ["FMETYPE"] else main_field_names
  (schemafields, schemafields)

/-- The class attribute after n calls of write (fme_compatible = True) within
one process: every call appends another FMETYPE entry to the shared list. -/
def fieldsAfterWrites : ℕ → List String
  | 0 => MAIN_FIELD_NAMES
  | n + 1 => (writeHeader (fieldsAfterWrites n) true).1

/-- The header row written by the (n+1)-th call of write (fme_compatible =
True) within one process. -/
def headerOfWrite (n : ℕ) : List String :=
  (writeHeader (fieldsAfterWrites n) true).2

/-! ## Theorems -/

/-- C3: feeding the relation processor the key/value sequence Name=R,
Primary=P, Secondary=S1, SecondaryLink=L1, PrimaryLink=L2, Secondary=S2,
followed by the terminator Emit, yields exactly two relation rows: the first
(name R, primary table P, secondary table S1, primary link *ROWID*, which
satisfies the claimed L1-or-*ROWID*, secondary link L1) returned at the
PrimaryLink=L2 trigger (no row has been returned after the first four lines,
and exactly this one after the first five), and the second (name R, primary
table P, primary link L2, secondary table S2, secondary link *ROWID*)
returned by Emit; no other rows are produced. -/
theorem C3_relation_state_machine :
    relationChunkOutput relSeqC3 =
      .ok [⟨"R", "P", "S1", "*ROWID*", "L1"⟩, ⟨"R", "P", "S2", "L2", "*ROWID*"⟩] ∧
    runRelationRows (relSeqC3.take 4) = .ok (⟨"R", "P", "", "S1", "L1"⟩, []) ∧
    runRelationRows (relSeqC3.take 5) =
      .ok (⟨"R", "P", "L2", "", ""⟩, [⟨"R", "P", "S1", "*ROWID*", "L1"⟩]) :=
  ⟨rfl, rfl, rfl⟩

/-- C5: on the failing input the code decrees JSON-mode for a 200-column
table none of whose own spec rows is country-specific, because the SQL WHERE
clause lacks parentheses (AND binds tighter than OR) and so the
country-specific equality test matches rows of any record; the claim (and
the docstring of _table_should_be_json) would make this table columnar. -/
theorem C5_precedence_failing_input :
    table_should_be_json [⟨"RECX", "Country Specific"⟩] "REC01" 200 = true ∧
    claimC5ShouldBeJson [⟨"RECX", "Country Specific"⟩] "REC01" 200 = false :=
  ⟨by decide, by decide⟩

/-- C6 counterexample: the [Dictionary] terminator emits the literal
RecordDesciption (sic, as written at DCF_Parser.py line 209), which is not
the RecordDescription the claim states. -/
theorem C6_counterexample :
    dictionaryTerminator
        [("Label", "Survey"), ("Name", "SURV"), ("RecordTypeStart", "1"),
         ("RecordTypeLen", "3"), ("ZeroFill", "Yes"), ("DecimalChar", "No")] =
      .ok (⟨"RecordDesciption", "*", "*", "*", "SURV", "Survey", "1", "3"⟩,
           "Yes", "No") ∧
    "RecordDesciption" ≠ "RecordDescription" :=
  ⟨rfl, by decide⟩

/-- C6 (amended): at the terminator of a [Dictionary] chunk, exactly one
record-spec row is emitted, whose item_type equals the literal
RecordDesciption (the misspelling the code writes), whose record_name is the
asterisk, and whose Start and Len are copied from the chunk RecordTypeStart
and RecordTypeLen keys; as a side effect the survey-wide zero_fill and
decimal_char defaults are set from this chunk. -/
theorem C6_dictionary_terminator (chunkInfo : ChunkInfo) (rts rtl zf dc : String)
    (h1 : lookupKey chunkInfo "RecordTypeStart" = some rts)
    (h2 : lookupKey chunkInfo "RecordTypeLen" = some rtl)
    (h3 : lookupKey chunkInfo "ZeroFill" = some zf)
    (h4 : lookupKey chunkInfo "DecimalChar" = some dc) :
    dictionaryTerminator chunkInfo =
      .ok (⟨"RecordDesciption", "*", "*", "*",
            (lookupKey chunkInfo "Name").getD "",
            (lookupKey chunkInfo "Label").getD "", rts, rtl⟩, zf, dc) := by
  unfold dictionaryTerminator
  rw [h1, h2, h3, h4]

/-- Witness for C6_dictionary_terminator at a concrete chunk. -/
theorem C6_witness :
    dictionaryTerminator
        [("RecordTypeStart", "5"), ("RecordTypeLen", "2"),
         ("ZeroFill", "No"), ("DecimalChar", "Yes")] =
      .ok (⟨"RecordDesciption", "*", "*", "*", "", "", "5", "2"⟩, "No", "Yes") :=
  C6_dictionary_terminator _ "5" "2" "No" "Yes" rfl rfl rfl rfl

/-- C7: on a metadata table holding exactly one row matching the surveyid
and the filecode pattern, _get_any_in_db returns False, because it tests
count greater than one instead of at least one; the claim (and the
docstring: see if ANY entries are present) requires True whenever the
matching row count is at least 1. -/
theorem C7_single_match_returns_false :
    (([⟨"511", "CMIR71"⟩] : List MetaRow).filter
        (fun r => r.surveyid == "511" && ilikeFtPattern "ir" r.filecode)).length = 1 ∧
    get_any_in_db [⟨"511", "CMIR71"⟩] "511" "ir" = false :=
  ⟨by decide, by decide⟩

/-- C10: DCF_Parser.write with fme_compatible appends FMETYPE to the shared
class-level MAIN_FIELD_NAMES list, so the header written by the (n+1)-th
call within one process is the main field names followed by n+1 FMETYPE
columns, and two successive writes produce different headers. -/
theorem C10_write_header_not_idempotent :
    (∀ n : ℕ, headerOfWrite n = MAIN_FIELD_NAMES ++ List.replicate (n + 1) "FMETYPE") ∧
    headerOfWrite 0 ≠ headerOfWrite 1 := by
  have key : ∀ n : ℕ,
      fieldsAfterWrites n = MAIN_FIELD_NAMES ++ List.replicate n "FMETYPE" := by
    intro n
    induction n with
    | zero => simp [fieldsAfterWrites]
    | succ n ih =>
        rw [fieldsAfterWrites, writeHeader]
        simp [ih, List.replicate_succ', List.append_assoc]
  constructor
  · intro n
    rw [headerOfWrite, writeHeader, key n]
    simp [List.replicate_succ', List.append_assoc]
  · decide

/-- C9: if a [Relation] chunk terminator is reached while no completed join
is pending (the relation name, primary table, or secondary table is still
empty, e.g. a chunk containing only Name= and Primary= lines), the parse
raises an exception rather than emitting zero rows, because the None result
of Emit is unconditionally dereferenced; consequently every [Relation] chunk
of a successfully parsed DCF contributes at least one relation row. -/
theorem C9_relation_chunk_nonempty :
    relationChunkOutput [("Name", "R"), ("Primary", "P")] =
      .error "TypeError: relLink is None at chunk terminator" ∧
    (∀ s : RelState,
       s.RelationshipName = "" ∨ s.PrimaryTable = "" ∨ s.SecondaryTable = "" →
       relationTerminator s = .error "TypeError: relLink is None at chunk terminator") ∧
    (∀ (rows : List (String × String)) (out : List RelRow),
       relationChunkOutput rows = .ok out → 1 ≤ out.length) := by
  refine ⟨rfl, ?_, ?_⟩
  · intro s hs
    simp [relationTerminator, Emit, getReturnObj, hs]
  · intro rows out h
    unfold relationChunkOutput at h
    cases hrun : runRelationRows rows with
    | error e => rw [hrun] at h; exact absurd h (by simp)
    | ok p =>
        obtain ⟨s, mid⟩ := p
        rw [hrun] at h
        dsimp only at h
        cases hterm : relationTerminator s with
        | error e => rw [hterm] at h; exact absurd h (by simp)
        | ok row =>
            rw [hterm] at h
            injection h with h2
            rw [← h2]
            simp

/-- Witness for C9_relation_chunk_nonempty: a state with an empty relation
name makes the terminator raise. -/
theorem C9_witness :
    relationTerminator (RelState.mk "" "P" "" "S" "") =
      .error "TypeError: relLink is None at chunk terminator" :=
  C9_relation_chunk_nonempty.2.1 (RelState.mk "" "P" "" "S" "") (Or.inl rfl)

/-- C1: for every DAT line routed to a record and every field descriptor of
that record, the emitted cell equals the slice line[start-1 : start-1+len];
if the field name is CASEID or HHID the cell is exactly that slice with all
whitespace retained, and for every other field name the cell equals the
slice with leading and trailing whitespace stripped. -/
theorem C1_slice_exactness_and_trim_policy
    (record_spec : List FieldInfo) (line : List Char) (k : Nat) (f : FieldInfo)
    (hf : record_spec[k]? = some f) (hs : 1 ≤ f.Start) :
    (rowParts record_spec line)[k]? =
      some (if f.Name = "CASEID" ∨ f.Name = "HHID"
            then pySlice line (f.Start - 1) ((f.Start - 1) + f.Len)
            else pyStrip (pySlice line (f.Start - 1) ((f.Start - 1) + f.Len))) := by
  have hb : f.Start + f.Len - 1 = (f.Start - 1) + f.Len := by omega
  simp only [rowParts, List.getElem?_map, hf, Option.map_some', strip_or_not, hb]

/-- Witness for C1_slice_exactness_and_trim_policy: a non-CASEID field of
width 3 starting at position 2 on a concrete line. -/
theorem C1_witness :
    (([FieldInfo.mk "V001" 2 3] : List FieldInfo)[0]? = some (FieldInfo.mk "V001" 2 3)) ∧
    1 ≤ (FieldInfo.mk "V001" 2 3).Start ∧
    (rowParts [FieldInfo.mk "V001" 2 3] ("1 23 ".toList))[0]? =
      some (if (FieldInfo.mk "V001" 2 3).Name = "CASEID" ∨
               (FieldInfo.mk "V001" 2 3).Name = "HHID"
            then pySlice ("1 23 ".toList) 1 4
            else pyStrip (pySlice ("1 23 ".toList) 1 4)) :=
  ⟨by decide, by decide,
   C1_slice_exactness_and_trim_policy [FieldInfo.mk "V001" 2 3] ("1 23 ".toList) 0
     (FieldInfo.mk "V001" 2 3) (by decide) (by decide)⟩

/-- Helper: one width check never shrinks the stored width. -/
theorem check_and_update_fst_ge (current req : ℤ) :
    current ≤ (check_and_update_column_width current req).1 := by
  unfold check_and_update_column_width
  split <;> simp
  omega

/-- Helper: after one width check the stored width covers the requirement. -/
theorem check_and_update_fst_ge_req (current req : ℤ) :
    req ≤ (check_and_update_column_width current req).1 := by
  unfold check_and_update_column_width
  split <;> simp
  omega

/-- Helper: a load sequence never shrinks the stored width. -/
theorem widthAfterLoads_ge_start (reqs : List ℤ) (start : ℤ) :
    start ≤ widthAfterLoads start reqs := by
  induction reqs generalizing start with
  | nil => simp [widthAfterLoads]
  | cons r rest ih =>
      calc start ≤ (check_and_update_column_width start r).1 :=
            check_and_update_fst_ge start r
        _ ≤ widthAfterLoads (check_and_update_column_width start r).1 rest :=
            ih _
        _ = widthAfterLoads start (r :: rest) := rfl

/-- Helper: the final stored width covers every width required during the
load sequence. -/
theorem widthAfterLoads_ge_mem (reqs : List ℤ) (start req : ℤ)
    (h : req ∈ reqs) : req ≤ widthAfterLoads start reqs := by
  induction reqs generalizing start with
  | nil => cases h
  | cons r rest ih =>
      rcases List.mem_cons.mp h with h1 | h2
      · subst h1
        calc req ≤ (check_and_update_column_width start req).1 :=
              check_and_update_fst_ge_req start req
          _ ≤ widthAfterLoads (check_and_update_column_width start req).1 rest :=
              widthAfterLoads_ge_start rest _
      · exact ih _ h2

/-- C4: every width-adjustment operation (the metadata loader per-column
width check and the synthesizer _ensure_column_widths) issues an ALTER
COLUMN TYPE only when the incoming required width strictly exceeds the
current width, and the new width equals the required width; no operation
reduces a width, so the stored width of a column is monotonically
non-decreasing across any sequence of loads and covers every width required
so far. -/
theorem C4_width_monotonicity :
    (∀ current req : ℤ,
       ((check_and_update_column_width current req).2 ≠ none ↔ current < req) ∧
       (∀ w, (check_and_update_column_width current req).2 = some w →
          w = req ∧ current < w) ∧
       current ≤ (check_and_update_column_width current req).1) ∧
    (∀ (length_specs : List LengthSpecRow) (ev : String × ℤ × ℤ),
       ev ∈ ensure_column_widths length_specs →
       ev.2.2 < ev.2.1 ∧
       ∃ r ∈ length_specs,
         r.name = ev.1 ∧ r.req_len = ev.2.1 ∧ r.actual_len = ev.2.2) ∧
    (∀ (start : ℤ) (reqs more : List ℤ),
       start ≤ widthAfterLoads start reqs ∧
       widthAfterLoads start reqs ≤ widthAfterLoads start (reqs ++ more) ∧
       ∀ req ∈ reqs, req ≤ widthAfterLoads start reqs) := by
  refine ⟨?_, ?_, ?_⟩
  · intro current req
    refine ⟨?_, ?_, check_and_update_fst_ge current req⟩
    · unfold check_and_update_column_width
      split <;> simp <;> omega
    · intro w hw
      unfold check_and_update_column_width at hw
      split at hw
      · simp at hw
        omega
      · simp at hw
  · intro length_specs ev hev
    unfold ensure_column_widths at hev
    simp only [List.mem_map, List.mem_filter] at hev
    obtain ⟨r, ⟨hmem, hgt⟩, hr⟩ := hev
    subst hr
    simp only [decide_eq_true_eq] at hgt
    exact ⟨hgt, r, hmem, rfl, rfl, rfl⟩
  · intro start reqs more
    refine ⟨widthAfterLoads_ge_start reqs start, ?_,
      fun req hreq => widthAfterLoads_ge_mem reqs start req hreq⟩
    have hfold : widthAfterLoads start (reqs ++ more) =
        widthAfterLoads (widthAfterLoads start reqs) more := by
      unfold widthAfterLoads
      exact List.foldl_append _ _ reqs more
    rw [hfold]
    exact widthAfterLoads_ge_start more _

/-- Witness for C4_width_monotonicity at concrete widths: starting width 5,
loads requiring 3 then 7. -/
theorem C4_witness :
    ((check_and_update_column_width 5 3).2 = some 3 → (3 : ℤ) = 3 ∧ (5 : ℤ) < 3) ∧
    (5 : ℤ) ≤ widthAfterLoads 5 [3, 7] ∧
    widthAfterLoads 5 [3, 7] ≤ widthAfterLoads 5 ([3, 7] ++ [4]) ∧
    (7 : ℤ) ≤ widthAfterLoads 5 [3, 7] :=
  ⟨(C4_width_monotonicity.1 5 3).2.1 3,
   (C4_width_monotonicity.2.2 5 [3, 7] [4]).1,
   (C4_width_monotonicity.2.2 5 [3, 7] [4]).2.1,
   (C4_width_monotonicity.2.2 5 [3, 7] [4]).2.2 7 (by simp)⟩

/-- C8: at a [Level] (respectively [Record]) chunk terminator, if the level
(record) name has already been seen in the same survey, then when the new
label is identical to the stored label the parser emits a warning (the Bool
flag) and continues, and when the labels differ the parse raises ValueError
and the survey aborts. -/
theorem C8_duplicate_name_handling
    (myLevels myRecords : ChunkInfo) (ids : List IdInfo)
    (name label stored rtv : String)
    (hl : lookupKey myLevels name = some stored)
    (hr : lookupKey myRecords name = some stored) :
    (stored = label →
       levelTerminator myLevels name label = .ok (setKey myLevels name label, true) ∧
       recordTerminator myRecords ids name label rtv =
         .ok (setKey myRecords name label,
              ids.map (fun idi => ⟨"IdItem", name, label, stripQuotes rtv,
                idi.Name, idi.Label, idi.Start, idi.Len⟩), true)) ∧
    (stored ≠ label →
       levelTerminator myLevels name label =
         .error "Duplicate level name encountered with non-matched label" ∧
       recordTerminator myRecords ids name label rtv =
         .error "Duplicate record name encountered with non-matched label") := by
  constructor
  · intro he
    subst he
    constructor
    · unfold levelTerminator
      rw [hl]
      simp
    · unfold recordTerminator
      rw [hr]
      simp
  · intro hne
    constructor
    · unfold levelTerminator
      rw [hl]
      simp [hne]
    · unfold recordTerminator
      rw [hr]
      simp [hne]

/-- Witness for C8_duplicate_name_handling: a duplicate level with the same
label warns and continues; a duplicate record with a different label is
fatal. -/
theorem C8_witness :
    (levelTerminator [("A", "x")] "A" "x" = .ok (setKey [("A", "x")] "A" "x", true)) ∧
    (recordTerminator [("A", "x")] [] "A" "y" "r" =
      .error "Duplicate record name encountered with non-matched label") :=
  ⟨((C8_duplicate_name_handling [("A", "x")] [("A", "x")] [] "A" "x" "x" "r"
      rfl rfl).1 rfl).1,
   ((C8_duplicate_name_handling [("A", "x")] [("A", "x")] [] "A" "y" "x" "r"
      rfl rfl).2 (by decide)).2⟩

/-- Helper: a ValueSet chunk holding a single range materializes it with
gotMultipleRanges = false. -/
theorem materializeRanges_singleton (strategy : String) (lim : ℤ)
    (mn mx : ℚ) (d : String) :
    materializeRanges strategy lim [(mn, mx, d)] =
      materializeRange strategy lim false mn mx d := by
  unfold materializeRanges
  have hdec : decide (([(mn, mx, d)] : List (ℚ × ℚ × String)).length > 1) = false := by
    simp
  rw [hdec]
  unfold materializeRangesAux
  cases h : materializeRange strategy lim false mn mx d with
  | error e => rfl
  | ok rows => unfold materializeRangesAux; simp

/-- C2 counterexample: a single integer range with equal endpoints (size
b-a+1 = 1, within any positive limit) makes the ValueSet terminator raise
ValueError instead of producing the claimed single expanded row. -/
theorem C2_counterexample :
    materializeRanges "All" 10000 [((5 : ℚ), (5 : ℚ), "Months")] =
      .error "Error parsing range" ∧
    materializeRanges "All" 10000 [((5 : ℚ), (5 : ℚ), "Months")] ≠
      .ok [⟨(5 : ℚ), "Months", ValueType.ExpandedRange⟩] := by
  have h : materializeRanges "All" 10000 [((5 : ℚ), (5 : ℚ), "Months")] =
      .error "Error parsing range" := by
    rw [materializeRanges_singleton]
    unfold materializeRange
    norm_num
  exact ⟨h, by rw [h]; exact fun hc => Except.noConfusion hc⟩

/-- Helper: policy All on a single integer range of size at least 2 within
the limit expands it. -/
theorem materializeRange_all_int (a b lim : ℤ) (d : String)
    (hab : a < b) (hlim : b - a + 1 ≤ lim) :
    materializeRange "All" lim false (a : ℚ) (b : ℚ) d =
      .ok ((expandRange a b).map
        (fun (v : ℤ) => ⟨(v : ℚ), d, ValueType.ExpandedRange⟩)) := by
  have hcast : (a : ℚ) < (b : ℚ) := by exact_mod_cast hab
  have h1 : ¬((b : ℚ) - (a : ℚ) + 1 ≤ 1) := by linarith
  have h2 : (b : ℚ) - (a : ℚ) + 1 ≤ (lim : ℚ) := by
    exact_mod_cast hlim
  unfold materializeRange
  rw [if_neg h1, if_pos h2, if_neg (by simp : ¬ ((false : Bool) = true)),
    if_pos ⟨rfl, by simp [Rat.den_intCast]⟩]
  simp [Rat.num_intCast]

/-- Helper: policy None on a single integer range of size at least 2 within
the limit emits the two endpoint rows. -/
theorem materializeRange_none_int (a b lim : ℤ) (d : String)
    (hab : a < b) (hlim : b - a + 1 ≤ lim) :
    materializeRange "None" lim false (a : ℚ) (b : ℚ) d =
      .ok [⟨(a : ℚ), d, ValueType.RangeMin⟩, ⟨(b : ℚ), d, ValueType.RangeMax⟩] := by
  have hcast : (a : ℚ) < (b : ℚ) := by exact_mod_cast hab
  have h1 : ¬((b : ℚ) - (a : ℚ) + 1 ≤ 1) := by linarith
  have h2 : (b : ℚ) - (a : ℚ) + 1 ≤ (lim : ℚ) := by
    exact_mod_cast hlim
  unfold materializeRange
  rw [if_neg h1, if_pos h2, if_neg (by simp : ¬ ((false : Bool) = true)),
    if_neg (by simp : ¬ ("None" = "All" ∧
      (((a : ℚ).den == 1 && (b : ℚ).den == 1) = true)))]

/-- Helper: a range with a non-integer endpoint is never expanded, whatever
the strategy, the limit or the range multiplicity. -/
theorem materializeRange_nonint (strategy : String) (lim2 : ℤ) (gm : Bool)
    (mn mx : ℚ) (d2 : String) (hint : (mn.den == 1 && mx.den == 1) = false)
    (rows : List ValueRow) (h : materializeRange strategy lim2 gm mn mx d2 = .ok rows) :
    ∀ r ∈ rows, r.vtype ≠ ValueType.ExpandedRange := by
  unfold materializeRange at h
  split at h
  · exact absurd h (by simp)
  · split at h
    · split at h
      · split at h
        · rename_i hc
          rw [hint] at hc
          simp at hc
        · injection h with h2
          intro r hr
          rw [← h2] at hr
          simp at hr
          rcases hr with rfl | rfl <;> simp
      · split at h
        · rename_i hc
          rw [hint] at hc
          simp at hc
        · injection h with h2
          intro r hr
          rw [← h2] at hr
          simp at hr
          rcases hr with rfl | rfl <;> simp
    · split at h
      · injection h with h2
        intro r hr
        rw [← h2] at hr
        simp at hr
        rcases hr with rfl | rfl <;> simp
      · injection h with h2
        intro r hr
        rw [← h2] at hr
        simp at hr
        rcases hr with rfl | rfl <;> simp

/-- C2 (amended): at a ValueSet terminator, a single value range a:b with
integer endpoints and size 2 ≤ b-a+1 ≤ range_expansion_limit produces, under
policy All, exactly b-a+1 value rows with values a..b and value_type
ExpandedRange; under policy None it produces exactly two rows typed RangeMin
and RangeMax; and a range with non-integer endpoints is never expanded
regardless of policy. (The amendment: the claim as frozen also covers
b-a+1 = 1, where the code instead raises ValueError, see the
counterexample.) -/
theorem C2_range_expansion_laws (a b lim : ℤ) (d : String)
    (hab : a < b) (hlim : b - a + 1 ≤ lim) :
    (∃ rows, materializeRanges "All" lim [((a : ℚ), (b : ℚ), d)] = .ok rows ∧
       rows.length = (b - a + 1).toNat ∧
       ∀ k : ℕ, k < rows.length →
         rows[k]? = some ⟨((a + k : ℤ) : ℚ), d, ValueType.ExpandedRange⟩) ∧
    materializeRanges "None" lim [((a : ℚ), (b : ℚ), d)] =
      .ok [⟨(a : ℚ), d, ValueType.RangeMin⟩, ⟨(b : ℚ), d, ValueType.RangeMax⟩] ∧
    (∀ (strategy : String) (lim2 : ℤ) (mn mx : ℚ) (d2 : String)
       (rows : List ValueRow),
       ¬(mn.den = 1 ∧ mx.den = 1) →
       materializeRanges strategy lim2 [(mn, mx, d2)] = .ok rows →
       ∀ r ∈ rows, r.vtype ≠ ValueType.ExpandedRange) := by
  refine ⟨?_, ?_, ?_⟩
  · refine ⟨(expandRange a b).map
        (fun (v : ℤ) => ⟨(v : ℚ), d, ValueType.ExpandedRange⟩), ?_, ?_, ?_⟩
    · rw [materializeRanges_singleton]
      exact materializeRange_all_int a b lim d hab hlim
    · simp [expandRange]
      omega
    · intro k hk
      simp only [expandRange, List.length_map, List.length_range] at hk
      simp [expandRange, List.getElem?_map, List.getElem?_range, hk]
  · rw [materializeRanges_singleton]
    exact materializeRange_none_int a b lim d hab hlim
  · intro strategy lim2 mn mx d2 rows hden h
    rw [materializeRanges_singleton] at h
    have hint : (mn.den == 1 && mx.den == 1) = false := by
      cases hmn : (mn.den == 1) <;> cases hmx : (mx.den == 1) <;>
        simp_all [beq_iff_eq]
    exact materializeRange_nonint strategy lim2 false mn mx d2 hint rows h

/-- Witness for C2_range_expansion_laws at the concrete range 1:3 with limit
10: policy None emits the two endpoint rows. -/
theorem C2_witness :
    (1 : ℤ) < 3 ∧ (3 : ℤ) - 1 + 1 ≤ 10 ∧
    materializeRanges "None" 10 [((1 : ℚ), (3 : ℚ), "d")] =
      .ok [⟨(1 : ℚ), "d", ValueType.RangeMin⟩, ⟨(3 : ℚ), "d", ValueType.RangeMax⟩] :=
  ⟨by decide, by decide,
   (C2_range_expansion_laws 1 3 10 "d" (by decide) (by decide)).2.1⟩
